import Mathlib

/-!
# Verification of the Grace_IDE WebSocket session/router core

Shallow embedding of `src/grace_ide/api/websocket.py` (class `WebSocketServer`
and the module-level middleware functions).  Python dicts are modelled as
association lists with dict-style insert/delete; Python sets as `List String`
without duplicates (insertion is a no-op on a present element, removal drops
every occurrence, so set semantics is preserved on nodup lists); the `rooms`
defaultdict as a total function `String → List String` whose absent entries
are the empty list; outbound websocket traffic as an explicit
list of `OutMsg`; the two external collaborator calls
(`handle_file_operation_request`, `handle_deployment_request`) as recorded
`ExtCall` events; a handler that raises an exception as an `Except.error`
carrying the state and outputs produced before the raise.
Timestamps carried inside payloads (`datetime.now().isoformat()`) are not
modelled: no claim depends on them.
-/

namespace GraceIDE

/-- A connected client (`@dataclass Client` in websocket.py).  The live
websocket handle, metadata map and the two timestamp fields are omitted:
no claim mentions them.  `permissions` is the Python `Set[str]`. -/
structure Client where
  id : String
  workspace : String
  authenticated : Bool
  permissions : List String
deriving DecidableEq

/-- A JWT token as produced by `jwt.encode(payload, secret, 'HS256')`:
the payload fields plus the signing secret (the signature is determined by
payload and secret, so we carry the secret itself). -/
structure Token where
  client_id : String
  workspace : String
  exp : Nat
  sig : String
deriving DecidableEq

/-- An inbound message after `json.loads`: the fields the modelled handlers
read.  `mtype` is `data.get('type')`. -/
structure Envelope where
  mtype : Option String
  token : Option Token
  channel : Option String
deriving DecidableEq

/-- An outbound payload: the fields of the JSON objects the server sends that
any claim distinguishes (`type`, the `error` text, and the token returned by
`auth_success`). -/
structure Payload where
  ptype : String
  error : Option String
  tok : Option Token
deriving DecidableEq

/-- One message written to a client's websocket. -/
structure OutMsg where
  recipient : String
  payload : Payload
deriving DecidableEq

/-- A call into one of the two external collaborator modules. -/
inductive ExtCall where
  | fileOp (clientId : String) (data : Envelope)
  | deployment (clientId : String) (data : Envelope)
deriving DecidableEq

/-- The metrics dictionary of `WebSocketServer.__init__`. -/
structure Metrics where
  messages_sent : Nat
  messages_received : Nat
  errors : Nat
  active_connections : Nat
  total_connections : Nat
deriving DecidableEq

/-- The mutable server state: `self.clients` (a dict, modelled as an
association list with unique keys maintained by dict-style update),
`self.rooms` (a `defaultdict(set)`, modelled totally with `∅` for absent
keys), `self.metrics`, and `self.secret_key`. -/
structure ServerState where
  clients : List (String × Client)
  rooms : String → List String
  metrics : Metrics
  secret_key : String

/-- `self.clients.get(cid)`. -/
def lookupClient (cs : List (String × Client)) (cid : String) : Option Client :=
  (cs.find? (fun p => p.1 == cid)).map (fun p => p.2)

/-- Python dict assignment `d[k] = v`: replace the existing entry or add a
new one. -/
def dictSet (cs : List (String × Client)) (cid : String) (c : Client) :
    List (String × Client) :=
  if cs.any (fun p => p.1 == cid) then
    cs.map (fun p => if p.1 == cid then (cid, c) else p)
  else
    (cid, c) :: cs

/-- Python `del d[k]`. -/
def dictDel (cs : List (String × Client)) (cid : String) :
    List (String × Client) :=
  cs.filter (fun p => p.1 != cid)

/-- Pointwise update of the rooms map: `self.rooms[room].add(cid)`
(the defaultdict materialises absent rooms as the empty set first;
`List.insert` adds the element only when it is not already present,
matching set `add`). -/
def roomAdd (rooms : String → List String) (room cid : String) :
    String → List String :=
  fun r => if r = room then (rooms r).insert cid else rooms r

/-- `self.rooms[room].discard(cid)` (on a duplicate-free list, removing every
occurrence is exactly set `discard`). -/
def roomDiscard (rooms : String → List String) (room cid : String) :
    String → List String :=
  fun r => if r = room then (rooms r).filter (fun x => x != cid) else rooms r

/-- `send_to_client`: look the client up in the registry; when present,
write the JSON to its socket and bump `messages_sent`; when absent, do
nothing at all.  The `except` branch of the source (a failing socket write
triggering `disconnect_client`) is not modelled: sends succeed here, and no
claim depends on a failing write to a registered client. -/
def send_to_client (s : ServerState) (cid : String) (p : Payload) :
    ServerState × List OutMsg :=
  match lookupClient s.clients cid with
  | none => (s, [])
  | some _ =>
      ({ s with metrics := { s.metrics with
            messages_sent := s.metrics.messages_sent + 1 } },
       [⟨cid, p⟩])

/-- `send_error`: `send_to_client` of `{'type': 'error', 'error': err, ...}`. -/
def send_error (s : ServerState) (cid : String) (err : String) :
    ServerState × List OutMsg :=
  send_to_client s cid ⟨"error", some err, none⟩

/-- The loop body of `send_to_workspace`, running over the snapshot list of
room members: skip the excluded client, call `send_to_client` on every other
member.  The third component records every client id `send_to_client` was
called with, in order. -/
def sendEach (s : ServerState) (targets : List String) (ex : Option String)
    (p : Payload) : ServerState × List OutMsg × List String :=
  match targets with
  | [] => (s, [], [])
  | cid :: rest =>
      if some cid = ex then sendEach s rest ex p
      else
        let r1 := send_to_client s cid p
        let r2 := sendEach r1.1 rest ex p
        (r2.1, r1.2 ++ r2.2.1, cid :: r2.2.2)

/-- `send_to_workspace(workspace, data, exclude_client)`: iterate a copy of
the room's member set (`.copy()` in the source — here the member list is
read out of the state once, before any send runs, which is exactly the
snapshot) and send to each member except `exclude_client`. -/
def send_to_workspace (s : ServerState) (workspace : String) (p : Payload)
    (ex : Option String) : ServerState × List OutMsg × List String :=
  sendEach s (s.rooms workspace) ex p

/-- The registration part of `handle_client`: create the `Client` record
(authenticated=False, empty permissions), insert it in the registry, bump
`total_connections`, and set `active_connections = len(self.clients)`. -/
def connect_client (s : ServerState) (cid workspace : String) : ServerState :=
  let c : Client := ⟨cid, workspace, false, []⟩
  let cs := dictSet s.clients cid c
  { s with
    clients := cs,
    metrics := { s.metrics with
      total_connections := s.metrics.total_connections + 1,
      active_connections := cs.length } }

/-- `disconnect_client`, with the possibility that the `user_left`
workspace notification raises modelled by the `notifyRaises` flag: the
source has no `try/finally`, so a raise at that point propagates
(`Except.error` carrying the state reached so far) and the remaining
cleanup lines never run.  `notifyRaises = false` is normal execution. -/
def disconnect_client_exc (s : ServerState) (cid : String)
    (notifyRaises : Bool) :
    Except ServerState (ServerState × List OutMsg) :=
  match lookupClient s.clients cid with
  | none => Except.ok (s, [])
  | some client =>
      let s1 := { s with rooms := fun r => (s.rooms r).filter (fun x => x != cid) }
      if client.workspace ≠ "" then
        if notifyRaises then Except.error s1
        else
          let r := send_to_workspace s1 client.workspace
            ⟨"user_left", none, none⟩ (some cid)
          let cs := dictDel r.1.clients cid
          Except.ok
            ({ r.1 with
               clients := cs,
               metrics := { r.1.metrics with
                 active_connections := cs.length } },
             r.2.1)
      else
        let cs := dictDel s1.clients cid
        Except.ok
          ({ s1 with
             clients := cs,
             metrics := { s1.metrics with
               active_connections := cs.length } },
           [])

/-- `disconnect_client` on the normal (no exception) path. -/
def disconnect_client (s : ServerState) (cid : String) :
    ServerState × List OutMsg :=
  match disconnect_client_exc s cid false with
  | Except.ok r => r
  | Except.error s1 => (s1, [])

/-- A middleware: `async def mw(client, message) → message | None`, plus
the messages it writes directly to the client's websocket before returning
(as `permission_middleware` does).  `none` rejects the message. -/
def Mw : Type := Client → Envelope → Option Envelope × List OutMsg

/-- The middleware loop of `handle_message` (lines 186-189):
`for middleware in self.middleware: data = await middleware(client, data);
if data is None: return`.  Returns the final envelope (or `none` on
rejection) and everything the stages sent themselves. -/
def runMiddleware (c : Client) (e : Envelope) : List Mw → Option Envelope × List OutMsg
  | [] => (some e, [])
  | mw :: rest =>
      match mw c e with
      | (none, outs) => (none, outs)
      | (some e2, outs) =>
          let r := runMiddleware c e2 rest
          (r.1, outs ++ r.2)

/-- `logging_middleware`: logs and passes the message through unchanged. -/
def logging_middleware : Mw := fun _ e => (some e, [])

/-- `rate_limit_middleware`: passes the message through unchanged. -/
def rate_limit_middleware : Mw := fun _ e => (some e, [])

/-- The `permission_map` dict of `permission_middleware`. -/
def permission_map (t : String) : Option String :=
  if t = "file_operation" then some "write"
  else if t = "deployment" then some "execute"
  else if t = "terminal_input" then some "execute"
  else none

/-- `permission_middleware`: when the message type needs a permission the
client lacks, write a `Permission denied` error straight to the socket
(bypassing `send_to_client`, so no metric is touched) and reject. -/
def permission_middleware : Mw := fun c e =>
  let req := match e.mtype with
             | some t => permission_map t
             | none => none
  match req with
  | some perm =>
      if perm ∈ c.permissions then (some e, [])
      else (none, [⟨c.id, ⟨"error", some ("Permission denied: " ++ perm ++ " required"), none⟩⟩])
  | none => (some e, [])

/-- The middleware chain installed by `create_server`, in registration
order. -/
def builtinMiddleware : List Mw :=
  [logging_middleware, rate_limit_middleware, permission_middleware]

/-- The result of running a handler: the state it left, the messages it
sent, and the external-collaborator calls it made. -/
structure HRes where
  state : ServerState
  outs : List OutMsg
  exts : List ExtCall

/-- A message handler; `Except.error` means the handler raised, carrying
the partial effects produced before the raise.  The `Nat` is the current
time in epoch seconds (Python `time.time()`), which `_handle_auth` reads. -/
def Handler : Type :=
  Nat → ServerState → Client → Envelope → Except HRes HRes

/-- `jwt.encode(payload, secret, algorithm='HS256')`: the token carries the
payload and is signed with `secret`. -/
def jwt_encode (client_id workspace : String) (exp : Nat) (secret : String) :
    Token :=
  ⟨client_id, workspace, exp, secret⟩

/-- Modelled from the spec: the PyJWT `jwt.decode(token, secret,
algorithms=['HS256'])` dependency is not part of this repository's sources.
Per the spec, "Validation fails (Invalid) when the signature does not match
the current process secret or the expiry epoch has passed", and "A token
validated after its expiry epoch is rejected; one validated one second
before expiry succeeds": so decoding succeeds exactly when the signature
matches and the current time has not passed `exp`. -/
def jwt_decode (tok : Token) (secret : String) (now : Nat) : Option Token :=
  if tok.sig = secret ∧ now ≤ tok.exp then some tok else none

/-- `_handle_auth`.  No token supplied: issue one expiring 86400 s from now,
mark the client authenticated with permissions {read, write, execute}, join
its workspace room, reply `auth_success` (with the token) and notify the
room with `user_joined`.  Token supplied: validate it; on success the same
state changes and an `auth_success` reply (without token), on failure an
`Invalid token` error. -/
def handle_auth : Handler := fun now s c e =>
  match e.token with
  | none =>
      let tok := jwt_encode c.id c.workspace (now + 86400) s.secret_key
      let c1 := { c with authenticated := true,
                         permissions := ["read", "write", "execute"] }
      let s1 := { s with clients := dictSet s.clients c.id c1,
                         rooms := roomAdd s.rooms c.workspace c.id }
      let r1 := send_to_client s1 c.id ⟨"auth_success", none, some tok⟩
      let r2 := send_to_workspace r1.1 c.workspace ⟨"user_joined", none, none⟩
                  (some c.id)
      Except.ok ⟨r2.1, r1.2 ++ r2.2.1, []⟩
  | some tok =>
      match jwt_decode tok s.secret_key now with
      | some _ =>
          let c1 := { c with authenticated := true,
                             permissions := ["read", "write", "execute"] }
          let s1 := { s with clients := dictSet s.clients c.id c1,
                             rooms := roomAdd s.rooms c.workspace c.id }
          let r1 := send_to_client s1 c.id ⟨"auth_success", none, none⟩
          Except.ok ⟨r1.1, r1.2, []⟩
      | none =>
          let r := send_error s c.id "Invalid token"
          Except.ok ⟨r.1, r.2, []⟩

/-- `_handle_logout`: clear the authenticated flag and the permission set,
reply `logout_success`.  Rooms and the registry key set are untouched. -/
def handle_logout : Handler := fun _ s c _ =>
  let c1 := { c with authenticated := false, permissions := [] }
  let s1 := { s with clients := dictSet s.clients c.id c1 }
  let r := send_to_client s1 c.id ⟨"logout_success", none, none⟩
  Except.ok ⟨r.1, r.2, []⟩

/-- `_handle_ping`: reply `pong`. -/
def handle_ping : Handler := fun _ s c _ =>
  let r := send_to_client s c.id ⟨"pong", none, none⟩
  Except.ok ⟨r.1, r.2, []⟩

/-- `_handle_subscribe`: `channel = data.get('channel'); if channel: ...` —
a missing or empty (falsy) channel does nothing at all. -/
def handle_subscribe : Handler := fun _ s c e =>
  match e.channel with
  | none => Except.ok ⟨s, [], []⟩
  | some ch =>
      if ch = "" then Except.ok ⟨s, [], []⟩
      else
        let s1 := { s with rooms := roomAdd s.rooms ch c.id }
        let r := send_to_client s1 c.id ⟨"subscribed", none, none⟩
        Except.ok ⟨r.1, r.2, []⟩

/-- `_handle_unsubscribe`: same falsy-guard as subscribe, with `discard`. -/
def handle_unsubscribe : Handler := fun _ s c e =>
  match e.channel with
  | none => Except.ok ⟨s, [], []⟩
  | some ch =>
      if ch = "" then Except.ok ⟨s, [], []⟩
      else
        let s1 := { s with rooms := roomDiscard s.rooms ch c.id }
        let r := send_to_client s1 c.id ⟨"unsubscribed", none, none⟩
        Except.ok ⟨r.1, r.2, []⟩

/-- `_handle_file_operation`: delegate to the external collaborator
`handle_file_operation_request(client.websocket, data)`. -/
def handle_file_operation : Handler := fun _ s c e =>
  Except.ok ⟨s, [], [ExtCall.fileOp c.id e]⟩

/-- `_handle_deployment`: delegate to `handle_deployment_request`. -/
def handle_deployment : Handler := fun _ s c e =>
  Except.ok ⟨s, [], [ExtCall.deployment c.id e]⟩

/-- The `self.message_handlers` table after `_register_builtin_handlers`,
restricted to the message types any claim exercises (the collaboration,
terminal and system handlers are registered in the source as well but no
claim dispatches to them). -/
def builtinHandlers (t : String) : Option Handler :=
  if t = "auth" then some handle_auth
  else if t = "logout" then some handle_logout
  else if t = "ping" then some handle_ping
  else if t = "subscribe" then some handle_subscribe
  else if t = "unsubscribe" then some handle_unsubscribe
  else if t = "file_operation" then some handle_file_operation
  else if t = "deployment" then some handle_deployment
  else none

/-- The `messages_received` increment `handle_message` does on entry for a
registered sender. -/
def bumpReceived (s : ServerState) : ServerState :=
  { s with metrics := { s.metrics with
      messages_received := s.metrics.messages_received + 1 } }

/-- `handle_message(client_id, message)` for an already-parsed envelope
(the `json.JSONDecodeError` branch is outside every claim): look the sender
up (silently drop frames from unknown ids), bump `messages_received`, reject
a missing `type`, run the middleware chain, enforce authentication for
types other than `auth`/`ping` (note: on the type read before middleware
ran), dispatch to the handler, and turn a handler exception into one
`Internal server error` reply plus an error-metric bump — the exception
never propagates. -/
def handle_message (handlers : String → Option Handler) (mws : List Mw)
    (now : Nat) (s : ServerState) (cid : String) (e : Envelope) : HRes :=
  match lookupClient s.clients cid with
  | none => ⟨s, [], []⟩
  | some client =>
      let s1 := bumpReceived s
      match e.mtype with
      | none =>
          let r := send_error s1 cid "Missing message type"
          ⟨r.1, r.2, []⟩
      | some t =>
          match runMiddleware client e mws with
          | (none, mouts) => ⟨s1, mouts, []⟩
          | (some e2, mouts) =>
              if t ≠ "auth" ∧ t ≠ "ping" ∧ client.authenticated = false then
                let r := send_error s1 cid "Authentication required"
                ⟨r.1, mouts ++ r.2, []⟩
              else
                match handlers t with
                | none =>
                    let r := send_error s1 cid ("Unknown message type: " ++ t)
                    ⟨r.1, mouts ++ r.2, []⟩
                | some h =>
                    match h now s1 client e2 with
                    | Except.ok res => ⟨res.state, mouts ++ res.outs, res.exts⟩
                    | Except.error res =>
                        let r := send_error res.state cid "Internal server error"
                        ⟨{ r.1 with metrics := { r.1.metrics with
                             errors := r.1.metrics.errors + 1 } },
                         mouts ++ res.outs ++ r.2, res.exts⟩

/-- A connect (the registration part of `handle_client`) or a disconnect
(`disconnect_client`), for reasoning about sequences of session lifecycle
events. -/
inductive ConnOp where
  | connect (cid workspace : String)
  | disconnect (cid : String)

/-- Apply one lifecycle operation. -/
def applyOp (s : ServerState) (op : ConnOp) : ServerState :=
  match op with
  | ConnOp.connect cid workspace => connect_client s cid workspace
  | ConnOp.disconnect cid => (disconnect_client s cid).1

/-- Run a finite sequence of lifecycle operations; every quiescent point of
such a sequence is the end state of one of its prefixes. -/
def runOps (s : ServerState) (ops : List ConnOp) : ServerState :=
  ops.foldl applyOp s

/-- The state built by `WebSocketServer.__init__`: empty registry, empty
rooms, all metrics zero. -/
def initialServer (secret : String) : ServerState :=
  ⟨[], fun _ => [], ⟨0, 0, 0, 0, 0⟩, secret⟩

/-! ### Concrete fixtures used by witnesses and counterexamples -/

/-- A freshly connected, unauthenticated client. -/
def cAlice : Client := ⟨"alice", "w", false, []⟩

/-- An authenticated client holding the full permission set. -/
def cBob : Client := ⟨"bob", "w", true, ["read", "write", "execute"]⟩

/-- A small server: alice (unauthenticated) and bob (authenticated), both
members of workspace room `w`. -/
def sDemo : ServerState :=
  ⟨[("alice", cAlice), ("bob", cBob)],
   fun r => if r = "w" then ["alice", "bob"] else [],
   ⟨0, 0, 0, 0, 0⟩, "sk"⟩

/-- A plain payload for broadcast examples. -/
def pHello : Payload := ⟨"hello", none, none⟩

/-- A `file_operation` envelope. -/
def envFileOp : Envelope := ⟨some "file_operation", none, none⟩

/-- A `logout` envelope. -/
def eLogout : Envelope := ⟨some "logout", none, none⟩

/-- A `subscribe` envelope with no `channel` field. -/
def eSubNoChannel : Envelope := ⟨some "subscribe", none, none⟩

/-- An `unsubscribe` envelope with no `channel` field. -/
def eUnsubNoChannel : Envelope := ⟨some "unsubscribe", none, none⟩

/-- An `auth` envelope with no token (requests issuance). -/
def envAuthNone : Envelope := ⟨some "auth", none, none⟩

/-- An envelope of a type with a registered handler that raises. -/
def envBoom : Envelope := ⟨some "boom", none, none⟩

/-- The `Permission denied` reply `permission_middleware` writes for alice
on a `file_operation`. -/
def pdAlice : OutMsg :=
  ⟨"alice", ⟨"error", some "Permission denied: write required", none⟩⟩

/-- A token signed with `sDemo`'s secret, expiring at epoch second 5. -/
def tokDemo : Token := ⟨"alice", "w", 5, "sk"⟩

/-- An `auth` envelope presenting `tokDemo` for validation. -/
def envTokDemo : Envelope := ⟨some "auth", some tokDemo, none⟩

/-- A handler that raises immediately, leaving state untouched. -/
def raisingHandler : Handler := fun _ s _ _ => Except.error ⟨s, [], []⟩

/-- A handler table with one handler, which raises. -/
def crashingHandlers (t : String) : Option Handler :=
  if t = "boom" then some raisingHandler else none

/-- Projection out of a handler result (both constructors carry an `HRes`). -/
def hresOf (r : Except HRes HRes) : HRes :=
  match r with
  | Except.ok v => v
  | Except.error v => v

/-! ### Helper lemmas about the primitive operations -/

theorem send_to_client_clients (s : ServerState) (cid : String) (p : Payload) :
    (send_to_client s cid p).1.clients = s.clients := by
  unfold send_to_client
  cases lookupClient s.clients cid <;> rfl

theorem send_to_client_rooms (s : ServerState) (cid : String) (p : Payload) :
    (send_to_client s cid p).1.rooms = s.rooms := by
  unfold send_to_client
  cases lookupClient s.clients cid <;> rfl

theorem sendEach_clients (targets : List String) (ex : Option String)
    (p : Payload) : ∀ s : ServerState,
    (sendEach s targets ex p).1.clients = s.clients := by
  induction targets with
  | nil => intro s; rfl
  | cons t rest ih =>
      intro s
      unfold sendEach
      by_cases h : some t = ex
      · simp only [if_pos h]; exact ih s
      · simp only [if_neg h]
        rw [ih, send_to_client_clients]

theorem sendEach_rooms (targets : List String) (ex : Option String)
    (p : Payload) : ∀ s : ServerState,
    (sendEach s targets ex p).1.rooms = s.rooms := by
  induction targets with
  | nil => intro s; rfl
  | cons t rest ih =>
      intro s
      unfold sendEach
      by_cases h : some t = ex
      · simp only [if_pos h]; exact ih s
      · simp only [if_neg h]
        rw [ih, send_to_client_rooms]

theorem sendEach_calls (ex : Option String) (p : Payload)
    (targets : List String) : ∀ s : ServerState,
    (sendEach s targets ex p).2.2 = targets.filter (fun c => some c != ex) := by
  induction targets with
  | nil => intro s; rfl
  | cons t rest ih =>
      intro s
      unfold sendEach
      by_cases h : some t = ex
      · have hb : (some t != ex) = false := by simp [bne, h]
        simp only [if_pos h, List.filter_cons, hb, if_false]
        exact ih s
      · have hb : (some t != ex) = true := by simp [bne, h]
        simp only [if_neg h, List.filter_cons, hb, if_true]
        rw [ih]

theorem sendEach_delivers (p : Payload) (cid : String) (c : Client)
    (targets : List String) : ∀ s : ServerState, cid ∈ targets →
    lookupClient s.clients cid = some c →
    OutMsg.mk cid p ∈ (sendEach s targets none p).2.1 := by
  induction targets with
  | nil => intro s hmem; cases hmem
  | cons t rest ih =>
      intro s hmem hlook
      unfold sendEach
      simp only [reduceCtorEq, if_false]
      rcases List.mem_cons.mp hmem with heq | hmem2
      · subst heq
        unfold send_to_client
        rw [hlook]
        simp
      · apply List.mem_append_right
        apply ih
        · exact hmem2
        · rw [send_to_client_clients]
          exact hlook

theorem find?_dictDel (cs : List (String × Client)) (cid : String) :
    (cs.filter (fun p => p.1 != cid)).find? (fun p => p.1 == cid) = none := by
  induction cs with
  | nil => rfl
  | cons pc rest ih =>
      by_cases h : pc.1 = cid
      · have hb : (pc.1 != cid) = false := by simp [bne, h]
        simp only [List.filter_cons, hb, if_false]
        exact ih
      · have hb : (pc.1 != cid) = true := by simp [bne, h]
        have hb2 : (pc.1 == cid) = false := by simp [h]
        simp only [List.filter_cons, hb, if_true, List.find?_cons, hb2]
        exact ih

theorem lookupClient_dictDel (cs : List (String × Client)) (cid : String) :
    lookupClient (dictDel cs cid) cid = none := by
  unfold lookupClient dictDel
  rw [find?_dictDel]
  rfl

theorem find?_dictSet_map (cid : String) (c : Client)
    (cs : List (String × Client)) :
    (cs.map (fun p => if p.1 == cid then (cid, c) else p)).find?
        (fun p => p.1 == cid) =
      (cs.find? (fun p => p.1 == cid)).map (fun _ => (cid, c)) := by
  induction cs with
  | nil => rfl
  | cons pc rest ih =>
      rw [List.map_cons]
      by_cases h : pc.1 = cid
      · have hb : (pc.1 == cid) = true := by simp [h]
        have hhead : (if (pc.1 == cid) = true then (cid, c) else pc) = (cid, c) := by
          simp [h]
        rw [hhead]
        simp only [List.find?_cons, hb, beq_self_eq_true, Option.map_some]
        rfl
      · have hb : (pc.1 == cid) = false := by simp [h]
        have hhead : (if (pc.1 == cid) = true then (cid, c) else pc) = pc := by
          simp [h]
        rw [hhead]
        simp only [List.find?_cons, hb]
        exact ih

theorem lookupClient_dictSet (cs : List (String × Client)) (cid : String)
    (c : Client) : lookupClient (dictSet cs cid c) cid = some c := by
  unfold lookupClient dictSet
  by_cases h : cs.any (fun p => p.1 == cid)
  · rw [if_pos h, find?_dictSet_map]
    rcases List.any_eq_true.mp h with ⟨p, hp, hpc⟩
    have : (cs.find? (fun p => p.1 == cid)).isSome := by
      rw [List.find?_isSome]
      exact ⟨p, hp, hpc⟩
    rcases Option.isSome_iff_exists.mp this with ⟨q, hq⟩
    rw [hq]
    rfl
  · rw [if_neg h]
    simp [List.find?_cons]

theorem find?_dictSet_map_ne (cid cid2 : String) (c : Client)
    (h : cid2 ≠ cid) (cs : List (String × Client)) :
    (cs.map (fun p => if p.1 == cid then (cid, c) else p)).find?
        (fun p => p.1 == cid2) =
      cs.find? (fun p => p.1 == cid2) := by
  induction cs with
  | nil => rfl
  | cons pc rest ih =>
      rw [List.map_cons]
      by_cases hp : pc.1 = cid
      · have hb2 : (pc.1 == cid2) = false := by
          simp only [beq_eq_false_iff_ne, ne_eq, hp]
          exact fun hc => h hc.symm
        have hb3 : (cid == cid2) = false := by
          simp only [beq_eq_false_iff_ne, ne_eq]
          exact fun hc => h hc.symm
        have hhead : (if (pc.1 == cid) = true then (cid, c) else pc) = (cid, c) := by
          simp [hp]
        rw [hhead]
        simp only [List.find?_cons, hb2, hb3]
        exact ih
      · have hb : (pc.1 == cid) = false := by simp [hp]
        have hhead : (if (pc.1 == cid) = true then (cid, c) else pc) = pc := by
          simp [hp]
        rw [hhead]
        simp only [List.find?_cons]
        cases hq : (pc.1 == cid2)
        · exact ih
        · rfl

theorem lookupClient_dictSet_ne (cs : List (String × Client))
    (cid cid2 : String) (c : Client) (h : cid2 ≠ cid) :
    lookupClient (dictSet cs cid c) cid2 = lookupClient cs cid2 := by
  unfold lookupClient dictSet
  by_cases ha : cs.any (fun p => p.1 == cid)
  · rw [if_pos ha, find?_dictSet_map_ne cid cid2 c h]
  · rw [if_neg ha]
    have hb : (cid == cid2) = false := by
      simp only [beq_eq_false_iff_ne, ne_eq]
      exact fun hc => h hc.symm
    simp [List.find?_cons, hb]

theorem filter_ne_length (sender : String) (M : List String)
    (hnd : M.Nodup) :
    (M.filter (fun x => x != sender)).length =
      M.length - (if sender ∈ M then 1 else 0) := by
  induction M with
  | nil => rfl
  | cons m rest ih =>
      rcases List.nodup_cons.mp hnd with ⟨hm, hrest⟩
      by_cases h : m = sender
      · subst h
        have hb : (m != m) = false := by simp
        have hmem : m ∈ m :: rest := List.mem_cons_self m rest
        rw [List.filter_cons]
        simp only [hb, Bool.false_eq_true, if_false, if_pos hmem,
          List.length_cons]
        rw [ih hrest, if_neg hm]
        omega
      · have hb : (m != sender) = true := by simp [bne, h]
        rw [List.filter_cons]
        simp only [hb, if_true, List.length_cons]
        rw [ih hrest]
        by_cases hs : sender ∈ rest
        · have hpos : 0 < rest.length := List.length_pos_of_mem hs
          have hmem : sender ∈ m :: rest := List.mem_cons_of_mem m hs
          rw [if_pos hs, if_pos hmem]
          omega
        · have hmem : sender ∉ m :: rest := by
            intro hc
            rcases List.mem_cons.mp hc with hc | hc
            · exact h hc.symm
            · exact hs hc
          rw [if_neg hs, if_neg hmem]
          omega

/-! ### Claim theorems -/

/-- C10: For every client id not present in the Session Registry,
`send_to_client(id, envelope)` performs no send, leaves all server state and
metrics (including `messages_sent`) unchanged, raises no error, and returns
normally. -/
theorem C10_send_to_unknown_client_noop (s : ServerState) (cid : String)
    (p : Payload) (h : lookupClient s.clients cid = none) :
    send_to_client s cid p = (s, []) := by
  unfold send_to_client
  rw [h]

theorem C10_witness :
    lookupClient sDemo.clients "ghost" = none ∧
    send_to_client sDemo "ghost" pHello = (sDemo, []) :=
  ⟨by decide, C10_send_to_unknown_client_noop sDemo "ghost" pHello (by decide)⟩

/-- Invariant step: every single connect or disconnect re-establishes
`active_connections = len(self.clients)`. -/
theorem disconnect_client_active (s : ServerState) (cid : String)
    (h : s.metrics.active_connections = s.clients.length) :
    (disconnect_client s cid).1.metrics.active_connections =
      (disconnect_client s cid).1.clients.length := by
  unfold disconnect_client disconnect_client_exc
  cases hl : lookupClient s.clients cid with
  | none => exact h
  | some c =>
      by_cases hw : c.workspace ≠ ""
      · simp only [if_pos hw, Bool.false_eq_true, if_false]
      · simp only [if_neg hw]

theorem applyOp_active (s : ServerState) (op : ConnOp)
    (h : s.metrics.active_connections = s.clients.length) :
    (applyOp s op).metrics.active_connections = (applyOp s op).clients.length := by
  cases op with
  | connect cid ws => rfl
  | disconnect cid => exact disconnect_client_active s cid h

/-- C2: For every finite sequence of connect (`handle_client` registration)
and disconnect (`disconnect_client`) operations starting from the freshly
constructed server, at every quiescent point — the end state of every prefix
of the sequence, which this theorem covers because it quantifies over all
sequences — `metrics['active_connections']` equals `len(self.clients)`. -/
theorem C2_active_connections_eq_registry_size (secret : String)
    (ops : List ConnOp) :
    (runOps (initialServer secret) ops).metrics.active_connections =
      (runOps (initialServer secret) ops).clients.length := by
  suffices hgen : ∀ s : ServerState,
      s.metrics.active_connections = s.clients.length →
      (runOps s ops).metrics.active_connections = (runOps s ops).clients.length by
    exact hgen (initialServer secret) rfl
  induction ops with
  | nil => intro s h; exact h
  | cons op rest ih =>
      intro s h
      exact ih (applyOp s op) (applyOp_active s op h)

/-- C6: Broadcasting to a workspace room with `exclude_client = sender`
calls `send_to_client` exactly once for each member other than the sender,
never for the sender, and the number of calls is `N-1` when the sender is a
member and `N` otherwise; the iteration runs over a snapshot of the member
set taken at call time (the member list is read out of the state once,
before the first send). -/
theorem C6_broadcast_excludes_sender (s : ServerState) (ws : String)
    (p : Payload) (sender : String) (hnd : (s.rooms ws).Nodup) :
    (∀ m ∈ s.rooms ws, m ≠ sender →
        ((send_to_workspace s ws p (some sender)).2.2).count m = 1) ∧
    sender ∉ (send_to_workspace s ws p (some sender)).2.2 ∧
    ((send_to_workspace s ws p (some sender)).2.2).length =
      (s.rooms ws).length - (if sender ∈ s.rooms ws then 1 else 0) := by
  have hc : (send_to_workspace s ws p (some sender)).2.2 =
      (s.rooms ws).filter (fun c => some c != some sender) := by
    unfold send_to_workspace
    exact sendEach_calls (some sender) p (s.rooms ws) s
  have hfilter : (s.rooms ws).filter (fun c => some c != some sender) =
      (s.rooms ws).filter (fun c => c != sender) := by
    apply List.filter_congr
    intro x _
    simp [bne]
  refine ⟨?_, ?_, ?_⟩
  · intro m hm hne
    rw [hc, hfilter]
    apply List.count_eq_one_of_mem
    · exact List.Nodup.filter _ hnd
    · rw [List.mem_filter]
      exact ⟨hm, by simp [bne, hne]⟩
  · rw [hc, hfilter]
    intro hmem
    rcases List.mem_filter.mp hmem with ⟨_, hx⟩
    simp at hx
  · rw [hc, hfilter]
    exact filter_ne_length sender (s.rooms ws) hnd

theorem C6_witness :
    (sDemo.rooms "w").Nodup ∧
    "alice" ∉ (send_to_workspace sDemo "w" pHello (some "alice")).2.2 ∧
    ((send_to_workspace sDemo "w" pHello (some "alice")).2.2).count "bob" = 1 :=
  ⟨by decide,
   (C6_broadcast_excludes_sender sDemo "w" pHello "alice" (by decide)).2.1,
   (C6_broadcast_excludes_sender sDemo "w" pHello "alice" (by decide)).1 "bob"
     (by decide) (by decide)⟩

/-- C3 (counterexample): with the `user_left` notification step raising,
`disconnect_client` leaves the session id in the Session Registry — the
source has no `try/finally`, so the cleanup steps after the raise do not
run, contradicting the claim that the id is absent from the registry even
when an intermediate cleanup step raises. -/
theorem C3_counterexample :
    (match disconnect_client_exc sDemo "alice" true with
     | Except.error s1 => (lookupClient s1.clients "alice").isSome
     | Except.ok _ => false) = true := by
  decide

/-- C3 (amended): for a registered session id, `disconnect_client` on the
normal path removes the id from every room and from the Session Registry;
but when the `user_left` notification raises, only the room removal (which
ran before it) has happened — the exception propagates and the id remains
in the Session Registry. -/
theorem C3_disconnect_cleanup (s : ServerState) (cid : String) (c : Client)
    (hreg : lookupClient s.clients cid = some c) :
    (∀ s2 outs, disconnect_client_exc s cid false = Except.ok (s2, outs) →
        (∀ r, cid ∉ s2.rooms r) ∧ lookupClient s2.clients cid = none) ∧
    (∀ s1, disconnect_client_exc s cid true = Except.error s1 →
        (∀ r, cid ∉ s1.rooms r) ∧ lookupClient s1.clients cid = some c) := by
  constructor
  · intro s2 outs heq
    unfold disconnect_client_exc at heq
    rw [hreg] at heq
    simp only [] at heq
    by_cases hw : c.workspace ≠ ""
    · rw [if_pos hw] at heq
      simp only [Bool.false_eq_true, if_false, Except.ok.injEq,
        Prod.mk.injEq] at heq
      obtain ⟨hs2, -⟩ := heq
      subst hs2
      constructor
      · intro r
        have hrooms :
            (send_to_workspace
              { s with rooms := fun r => (s.rooms r).filter (fun x => x != cid) }
              c.workspace ⟨"user_left", none, none⟩ (some cid)).1.rooms =
              fun r => (s.rooms r).filter (fun x => x != cid) := by
          unfold send_to_workspace
          rw [sendEach_rooms]
        simp only [hrooms]
        intro hmem
        rcases List.mem_filter.mp hmem with ⟨-, hx⟩
        simp at hx
      · exact lookupClient_dictDel _ cid
    · rw [if_neg hw] at heq
      simp only [Except.ok.injEq, Prod.mk.injEq] at heq
      obtain ⟨hs2, -⟩ := heq
      subst hs2
      constructor
      · intro r hmem
        rcases List.mem_filter.mp hmem with ⟨-, hx⟩
        simp at hx
      · exact lookupClient_dictDel _ cid
  · intro s1 heq
    unfold disconnect_client_exc at heq
    rw [hreg] at heq
    simp only [] at heq
    by_cases hw : c.workspace ≠ ""
    · rw [if_pos hw] at heq
      simp only [if_true, Except.error.injEq] at heq
      subst heq
      constructor
      · intro r hmem
        rcases List.mem_filter.mp hmem with ⟨-, hx⟩
        simp at hx
      · exact hreg
    · rw [if_neg hw] at heq
      cases heq

theorem C3_witness :
    lookupClient sDemo.clients "alice" = some cAlice ∧
    "alice" ∉ ((disconnect_client sDemo "alice").1).rooms "w" ∧
    lookupClient ((disconnect_client sDemo "alice").1).clients "alice" = none :=
  ⟨by decide,
   ((C3_disconnect_cleanup sDemo "alice" cAlice (by decide)).1
      (disconnect_client sDemo "alice").1 (disconnect_client sDemo "alice").2
      rfl).1 "w",
   ((C3_disconnect_cleanup sDemo "alice" cAlice (by decide)).1
      (disconnect_client sDemo "alice").1 (disconnect_client sDemo "alice").2
      rfl).2⟩

/-- C8: handling a `logout` envelope clears the authenticated flag and
empties the permission set, but touches neither any room's member set nor
the session's presence in the registry (nor any other registry entry): the
session is still a member of its workspace room and a later room broadcast
still delivers to it. -/
theorem C8_logout_frame (now : Nat) (s : ServerState) (c : Client)
    (e : Envelope) :
    ∀ res : HRes, handle_logout now s c e = Except.ok res →
      res.state.rooms = s.rooms ∧
      lookupClient res.state.clients c.id =
        some { c with authenticated := false, permissions := [] } ∧
      (∀ cid2, cid2 ≠ c.id →
        lookupClient res.state.clients cid2 = lookupClient s.clients cid2) ∧
      res.outs = [⟨c.id, ⟨"logout_success", none, none⟩⟩] ∧
      (∀ w p2, c.id ∈ s.rooms w →
        OutMsg.mk c.id p2 ∈ (send_to_workspace res.state w p2 none).2.1) := by
  have hre : handle_logout now s c e = Except.ok
      ⟨{ s with
           clients := dictSet s.clients c.id
             { c with authenticated := false, permissions := [] },
           metrics := { s.metrics with
             messages_sent := s.metrics.messages_sent + 1 } },
        [⟨c.id, ⟨"logout_success", none, none⟩⟩], []⟩ := by
    unfold handle_logout send_to_client
    simp only []
    rw [lookupClient_dictSet]
  intro res heq
  rw [hre] at heq
  cases heq
  refine ⟨rfl, lookupClient_dictSet _ _ _, ?_, rfl, ?_⟩
  · intro cid2 hne
    exact lookupClient_dictSet_ne s.clients c.id cid2 _ hne
  · intro w p2 hmem
    unfold send_to_workspace
    apply sendEach_delivers p2 c.id
      { c with authenticated := false, permissions := [] }
    · exact hmem
    · exact lookupClient_dictSet _ _ _

theorem C8_witness :
    cBob.id ∈ sDemo.rooms "w" ∧
    (hresOf (handle_logout 0 sDemo cBob eLogout)).state.rooms = sDemo.rooms ∧
    lookupClient (hresOf (handle_logout 0 sDemo cBob eLogout)).state.clients
        cBob.id =
      some { cBob with authenticated := false, permissions := [] } ∧
    OutMsg.mk cBob.id pHello ∈
      (send_to_workspace (hresOf (handle_logout 0 sDemo cBob eLogout)).state
        "w" pHello none).2.1 :=
  ⟨by decide,
   (C8_logout_frame 0 sDemo cBob eLogout
      (hresOf (handle_logout 0 sDemo cBob eLogout)) rfl).1,
   (C8_logout_frame 0 sDemo cBob eLogout
      (hresOf (handle_logout 0 sDemo cBob eLogout)) rfl).2.1,
   (C8_logout_frame 0 sDemo cBob eLogout
      (hresOf (handle_logout 0 sDemo cBob eLogout)) rfl).2.2.2.2 "w" pHello
      (by decide)⟩

/-- C5: middleware stages run in registration order, each stage receiving
the envelope the previous stage returned (first conjunct); a stage that
rejects terminates the pipeline immediately with only its own output
(second conjunct); and inside `handle_message` — for every message type,
including `auth` and `ping` — a pipeline rejection means no handler runs,
no external call is made, and no reply is sent beyond what the rejecting
stage itself sent (third conjunct). -/
theorem C5_middleware_pipeline (mw : Mw) (rest : List Mw) (c : Client)
    (e : Envelope) :
    (∀ e2 o, mw c e = (some e2, o) →
      runMiddleware c e (mw :: rest) =
        ((runMiddleware c e2 rest).1, o ++ (runMiddleware c e2 rest).2)) ∧
    (∀ o, mw c e = (none, o) →
      runMiddleware c e (mw :: rest) = (none, o)) ∧
    (∀ (handlers : String → Option Handler) (mws : List Mw) (now : Nat)
        (s : ServerState) (cid : String) (cl : Client) (t : String)
        (mouts : List OutMsg),
      lookupClient s.clients cid = some cl → e.mtype = some t →
      runMiddleware cl e mws = (none, mouts) →
      handle_message handlers mws now s cid e = ⟨bumpReceived s, mouts, []⟩) := by
  refine ⟨?_, ?_, ?_⟩
  · intro e2 o h
    have hu : runMiddleware c e (mw :: rest) =
        (match mw c e with
         | (none, outs) => (none, outs)
         | (some e3, outs) =>
             ((runMiddleware c e3 rest).1, outs ++ (runMiddleware c e3 rest).2)) :=
      rfl
    rw [hu, h]
  · intro o h
    unfold runMiddleware
    rw [h]

  · intro handlers mws now s cid cl t mouts hreg ht hmw
    unfold handle_message
    rw [hreg]
    simp only []
    rw [ht]
    simp only []
    rw [hmw]

theorem C5_witness :
    logging_middleware cAlice envFileOp = (some envFileOp, []) ∧
    runMiddleware cAlice envFileOp (logging_middleware :: [permission_middleware]) =
      ((runMiddleware cAlice envFileOp [permission_middleware]).1,
        [] ++ (runMiddleware cAlice envFileOp [permission_middleware]).2) ∧
    permission_middleware cAlice envFileOp = (none, [pdAlice]) ∧
    runMiddleware cAlice envFileOp (permission_middleware :: []) =
      (none, [pdAlice]) ∧
    handle_message builtinHandlers builtinMiddleware 0 sDemo "alice" envFileOp =
      ⟨bumpReceived sDemo, [pdAlice], []⟩ :=
  ⟨by decide,
   (C5_middleware_pipeline logging_middleware [permission_middleware] cAlice
      envFileOp).1 envFileOp [] (by decide),
   by decide,
   (C5_middleware_pipeline permission_middleware [] cAlice envFileOp).2.1
     [pdAlice] (by decide),
   (C5_middleware_pipeline logging_middleware [] cAlice envFileOp).2.2
     builtinHandlers builtinMiddleware 0 sDemo "alice" cAlice "file_operation"
     [pdAlice] (by decide) (by decide) (by decide)⟩

/-- C7: when the dispatched handler raises, `handle_message` catches the
exception and returns normally, appending exactly one `Internal server
error` reply for the sender after the handler's own partial output,
incrementing `metrics['errors']` by exactly one (and `messages_sent` by one
for the reply), and leaving the registry — hence the connection — exactly
as the handler left it, so later frames from the session are still
processed. -/
theorem C7_handler_exception_contained
    (handlers : String → Option Handler) (mws : List Mw) (now : Nat)
    (s : ServerState) (cid : String) (cl : Client) (e : Envelope) (t : String)
    (e2 : Envelope) (mouts : List OutMsg) (h : Handler) (res : HRes)
    (c2 : Client)
    (hreg : lookupClient s.clients cid = some cl)
    (ht : e.mtype = some t)
    (hmw : runMiddleware cl e mws = (some e2, mouts))
    (hgate : t = "auth" ∨ t = "ping" ∨ cl.authenticated = true)
    (hh : handlers t = some h)
    (hraise : h now (bumpReceived s) cl e2 = Except.error res)
    (hreg2 : lookupClient res.state.clients cid = some c2) :
    handle_message handlers mws now s cid e =
      ⟨{ res.state with metrics := { res.state.metrics with
           messages_sent := res.state.metrics.messages_sent + 1,
           errors := res.state.metrics.errors + 1 } },
        mouts ++ res.outs ++
          [⟨cid, ⟨"error", some "Internal server error", none⟩⟩],
        res.exts⟩ := by
  unfold handle_message
  rw [hreg]
  simp only []
  rw [ht]
  simp only []
  rw [hmw]
  simp only []
  rw [if_neg (by rcases hgate with hg | hg | hg <;> simp [hg])]
  rw [hh]
  simp only []
  rw [hraise]
  simp only []
  unfold send_error send_to_client
  rw [hreg2]

theorem C7_witness :
    crashingHandlers "boom" = some raisingHandler ∧
    raisingHandler 0 (bumpReceived sDemo) cBob envBoom =
      Except.error ⟨bumpReceived sDemo, [], []⟩ ∧
    (handle_message crashingHandlers [] 0 sDemo "bob" envBoom).outs =
      [⟨"bob", ⟨"error", some "Internal server error", none⟩⟩] ∧
    (handle_message crashingHandlers [] 0 sDemo "bob" envBoom).state.metrics.errors =
      sDemo.metrics.errors + 1 ∧
    lookupClient
        (handle_message crashingHandlers [] 0 sDemo "bob" envBoom).state.clients
        "bob" = some cBob := by
  have happ := C7_handler_exception_contained crashingHandlers [] 0 sDemo "bob"
    cBob envBoom "boom" envBoom [] raisingHandler ⟨bumpReceived sDemo, [], []⟩
    cBob (by decide) rfl rfl (Or.inr (Or.inr rfl)) rfl rfl (by decide)
  rw [happ]
  refine ⟨rfl, rfl, rfl, rfl, by decide⟩

/-- C1 (counterexample): an unauthenticated session with an empty
permission set (the state every session is in before authenticating)
sending `file_operation` through the built-in middleware chain receives no
`Authentication required` error at all — `permission_middleware` runs
before the dispatcher's authentication gate, finds `write` missing, sends
`Permission denied: write required` and rejects the message, so the gate is
never reached.  The external collaborator is still never invoked. -/
theorem C1_counterexample :
    ((handle_message builtinHandlers builtinMiddleware 0 sDemo "alice"
        envFileOp).outs.filter
      (fun m => m.payload.error == some "Authentication required")).length = 0 ∧
    (handle_message builtinHandlers builtinMiddleware 0 sDemo "alice"
        envFileOp).outs = [pdAlice] ∧
    (handle_message builtinHandlers builtinMiddleware 0 sDemo "alice"
        envFileOp).exts = [] := by
  decide

/-- C1 (amended): an unauthenticated registered session sending
`file_operation` on a server with the built-in middleware chain never
reaches `handle_file_operation_request` (no external call), and receives
exactly one error reply: `Permission denied: write required` when `write`
is not among its permissions (the reachable unauthenticated states), and
`Authentication required` otherwise. -/
theorem C1_unauth_file_operation (now : Nat) (s : ServerState)
    (cid : String) (cl : Client) (e : Envelope)
    (hreg : lookupClient s.clients cid = some cl)
    (hauth : cl.authenticated = false)
    (ht : e.mtype = some "file_operation") :
    (handle_message builtinHandlers builtinMiddleware now s cid e).exts = [] ∧
    (handle_message builtinHandlers builtinMiddleware now s cid e).outs =
      (if "write" ∈ cl.permissions
       then [⟨cid, ⟨"error", some "Authentication required", none⟩⟩]
       else [⟨cl.id, ⟨"error", some "Permission denied: write required",
               none⟩⟩]) := by
  unfold handle_message
  rw [hreg]
  simp only []
  rw [ht]
  simp only []
  by_cases hw : "write" ∈ cl.permissions
  · have hmw : runMiddleware cl e builtinMiddleware = (some e, []) := by
      simp [builtinMiddleware, runMiddleware, logging_middleware,
        rate_limit_middleware, permission_middleware, permission_map, ht, hw]
    rw [hmw]
    simp only []
    rw [if_pos (by simp [hauth])]
    unfold send_error send_to_client bumpReceived
    rw [hreg]
    simp [hw]
  · have hmw : runMiddleware cl e builtinMiddleware =
        (none, [⟨cl.id, ⟨"error",
          some "Permission denied: write required", none⟩⟩]) := by
      simp [builtinMiddleware, runMiddleware, logging_middleware,
        rate_limit_middleware, permission_middleware, permission_map, ht, hw]
    rw [hmw]
    simp [hw]

theorem C1_witness :
    lookupClient sDemo.clients "alice" = some cAlice ∧
    cAlice.authenticated = false ∧
    (handle_message builtinHandlers builtinMiddleware 0 sDemo "alice"
        envFileOp).exts = [] ∧
    (handle_message builtinHandlers builtinMiddleware 0 sDemo "alice"
        envFileOp).outs = [pdAlice] := by
  have happ := C1_unauth_file_operation 0 sDemo "alice" cAlice envFileOp
    (by decide) rfl rfl
  refine ⟨by decide, rfl, happ.1, ?_⟩
  rw [happ.2]
  decide

/-- C4: tokens are issued expiring 86400 seconds after issue time, signed
with the process secret (first conjunct: the `auth_success` reply carries
exactly that token); validating a token signed with the same secret
strictly after its expiry epoch fails — one `Invalid token` error, registry
(hence the authenticated flag) untouched (second conjunct); validating one
second before expiry succeeds and grants permissions
{read, write, execute} (third conjunct). -/
theorem C4_token_expiry (now t : Nat) (s : ServerState) (cl : Client)
    (e : Envelope) (tok : Token)
    (hreg : lookupClient s.clients cl.id = some cl) :
    (e.token = none →
      ∀ res, handle_auth now s cl e = Except.ok res →
        res.outs.head? = some ⟨cl.id, ⟨"auth_success", none,
          some (jwt_encode cl.id cl.workspace (now + 86400) s.secret_key)⟩⟩) ∧
    (e.token = some tok → tok.sig = s.secret_key → tok.exp < t →
      handle_auth t s cl e =
        Except.ok ⟨{ s with metrics := { s.metrics with
            messages_sent := s.metrics.messages_sent + 1 } },
          [⟨cl.id, ⟨"error", some "Invalid token", none⟩⟩], []⟩) ∧
    (e.token = some tok → tok.sig = s.secret_key → 1 ≤ tok.exp →
      t = tok.exp - 1 →
      ∀ res, handle_auth t s cl e = Except.ok res →
        lookupClient res.state.clients cl.id =
          some { cl with authenticated := true,
                         permissions := ["read", "write", "execute"] } ∧
        res.outs = [⟨cl.id, ⟨"auth_success", none, none⟩⟩]) := by
  refine ⟨?_, ?_, ?_⟩
  · intro htok res heq
    unfold handle_auth at heq
    rw [htok] at heq
    simp only [] at heq
    unfold send_to_client at heq
    rw [lookupClient_dictSet] at heq
    simp only [] at heq
    cases heq
    rfl
  · intro htok hsig hexp
    unfold handle_auth
    rw [htok]
    simp only []
    unfold jwt_decode
    rw [if_neg (fun hc => absurd hc.2 (by omega))]
    unfold send_error send_to_client
    rw [hreg]
  · intro htok hsig hexp ht res heq
    unfold handle_auth at heq
    rw [htok] at heq
    simp only [] at heq
    unfold jwt_decode at heq
    rw [if_pos ⟨hsig, by omega⟩] at heq
    simp only [] at heq
    unfold send_to_client at heq
    rw [lookupClient_dictSet] at heq
    simp only [] at heq
    cases heq
    exact ⟨lookupClient_dictSet _ _ _, rfl⟩

theorem C4_witness :
    lookupClient sDemo.clients cAlice.id = some cAlice ∧
    (hresOf (handle_auth 0 sDemo cAlice envAuthNone)).outs.head? =
      some ⟨cAlice.id, ⟨"auth_success", none,
        some (jwt_encode cAlice.id cAlice.workspace 86400
          sDemo.secret_key)⟩⟩ ∧
    tokDemo.sig = sDemo.secret_key ∧ tokDemo.exp < 6 ∧
    handle_auth 6 sDemo cAlice envTokDemo =
      Except.ok ⟨{ sDemo with metrics := { sDemo.metrics with
          messages_sent := sDemo.metrics.messages_sent + 1 } },
        [⟨cAlice.id, ⟨"error", some "Invalid token", none⟩⟩], []⟩ ∧
    lookupClient
        (hresOf (handle_auth 4 sDemo cAlice envTokDemo)).state.clients
        cAlice.id =
      some { cAlice with authenticated := true,
                         permissions := ["read", "write", "execute"] } := by
  have h1 := (C4_token_expiry 0 6 sDemo cAlice envAuthNone tokDemo
    (by decide)).1 rfl (hresOf (handle_auth 0 sDemo cAlice envAuthNone)) rfl
  have h2 := (C4_token_expiry 0 6 sDemo cAlice envTokDemo tokDemo
    (by decide)).2.1 rfl rfl (by decide)
  have h3 := (C4_token_expiry 0 4 sDemo cAlice envTokDemo tokDemo
    (by decide)).2.2 rfl rfl (by decide) rfl
    (hresOf (handle_auth 4 sDemo cAlice envTokDemo)) rfl
  exact ⟨by decide, h1, rfl, by decide, h2, h3.1⟩

/-- C9: for an authenticated registered session, a `subscribe` or
`unsubscribe` envelope whose `channel` field is absent or empty (falsy)
goes through the full dispatch but changes nothing: the Room Index and
registry are left as they were and no reply of any kind is sent — the only
effect of the whole `handle_message` call is the `messages_received`
bump done on entry. -/
theorem C9_falsy_channel_noop (now : Nat) (s : ServerState) (cid : String)
    (cl : Client) (e : Envelope)
    (hreg : lookupClient s.clients cid = some cl)
    (hauth : cl.authenticated = true)
    (ht : e.mtype = some "subscribe" ∨ e.mtype = some "unsubscribe")
    (hch : e.channel = none ∨ e.channel = some "") :
    handle_message builtinHandlers builtinMiddleware now s cid e =
      ⟨bumpReceived s, [], []⟩ := by
  have hh : ∀ t, e.mtype = some t → t = "subscribe" ∨ t = "unsubscribe" →
      handle_message builtinHandlers builtinMiddleware now s cid e =
        ⟨bumpReceived s, [], []⟩ := by
    intro t ht2 hcases
    have hmw : runMiddleware cl e builtinMiddleware = (some e, []) := by
      rcases hcases with h | h <;> subst h <;>
        simp [builtinMiddleware, runMiddleware, logging_middleware,
          rate_limit_middleware, permission_middleware, permission_map, ht2]
    unfold handle_message
    rw [hreg]
    simp only []
    rw [ht2]
    simp only []
    rw [hmw]
    simp only []
    rw [if_neg (by rcases hcases with h | h <;> simp [h, hauth])]
    have hhandler :
        ∀ hd, builtinHandlers t = some hd →
          hd now (bumpReceived s) cl e = Except.ok ⟨bumpReceived s, [], []⟩ →
          (match builtinHandlers t with
           | none =>
               let r := send_error (bumpReceived s) cid
                 ("Unknown message type: " ++ t)
               (⟨r.1, [] ++ r.2, []⟩ : HRes)
           | some h =>
               match h now (bumpReceived s) cl e with
               | Except.ok res => ⟨res.state, [] ++ res.outs, res.exts⟩
               | Except.error res =>
                   let r := send_error res.state cid "Internal server error"
                   ⟨{ r.1 with metrics := { r.1.metrics with
                        errors := r.1.metrics.errors + 1 } },
                    [] ++ res.outs ++ r.2, res.exts⟩) =
            (⟨bumpReceived s, [], []⟩ : HRes) := by
      intro hd hhd hrun
      rw [hhd]
      simp only []
      rw [hrun]
      exact rfl
    rcases hcases with h | h <;> subst h
    · exact hhandler handle_subscribe (by rfl)
        (by rcases hch with h2 | h2 <;> simp [handle_subscribe, h2])
    · exact hhandler handle_unsubscribe (by rfl)
        (by rcases hch with h2 | h2 <;> simp [handle_unsubscribe, h2])
  rcases ht with h | h
  · exact hh "subscribe" h (Or.inl rfl)
  · exact hh "unsubscribe" h (Or.inr rfl)

theorem C9_witness :
    lookupClient sDemo.clients "bob" = some cBob ∧
    cBob.authenticated = true ∧
    eSubNoChannel.channel = none ∧
    handle_message builtinHandlers builtinMiddleware 0 sDemo "bob"
        eSubNoChannel = ⟨bumpReceived sDemo, [], []⟩ ∧
    handle_message builtinHandlers builtinMiddleware 0 sDemo "bob"
        eUnsubNoChannel = ⟨bumpReceived sDemo, [], []⟩ :=
  ⟨by decide, rfl, rfl,
   C9_falsy_channel_noop 0 sDemo "bob" cBob eSubNoChannel (by decide) rfl
     (Or.inl rfl) (Or.inl rfl),
   C9_falsy_channel_noop 0 sDemo "bob" cBob eUnsubNoChannel (by decide) rfl
     (Or.inr rfl) (Or.inl rfl)⟩

end GraceIDE
